import Mathlib

/-!
Verification development for the chat-with-history frontend coordination core
(`src/frontend/src/hooks/useChat.ts` and
`src/frontend/src/hooks/useChatWithHistory.ts`).

The TypeScript code is shallowly embedded: each class method becomes a pure
Lean function on an explicit state record, and the asynchronous completions
(create / update / title-generation / load resolutions, debounce-timer fires)
become events of a small-step operational semantics.  JavaScript is
single-threaded with cooperative scheduling, so each synchronous block of the
source runs atomically as one step, and the scheduler (the event list) picks
the order in which pending asynchronous continuations resolve.

All message contents used in concrete traces are plain ASCII, for which
JavaScript's UTF-16-unit-based `substring`/`length` agree with the
character-based helpers defined here.
-/

/-- Role of a chat message, from the `Message` interface in `useChat.ts`. -/
inductive Role where
  | user
  | assistant
  | system
deriving DecidableEq, Repr

/-- Chat message: `{ role: user|assistant|system, content: string }`. -/
structure Message where
  role : Role
  content : String
deriving DecidableEq, Repr

/-- Characters treated as whitespace by `String.prototype.trim` that occur in
the ASCII inputs considered here. -/
def isJsSpace (c : Char) : Bool :=
  c = ' ' || c = '\t' || c = '\n' || c = '\r'

/-- Model of JavaScript `s.substring(0, n)` (character-based; coincides with
the UTF-16 semantics on ASCII input). -/
def strTake (s : String) (n : Nat) : String :=
  String.mk (s.data.take n)

/-- Model of JavaScript `s.trim()`. -/
def strTrim (s : String) : String :=
  String.mk (((s.data.dropWhile isJsSpace).reverse.dropWhile isJsSpace).reverse)

/-- Model of JavaScript `s.length` on ASCII input. -/
def strLength (s : String) : Nat :=
  s.data.length

/-- ChatHistoryService.extractTitle: first 30 characters of `content`,
trimmed; an ellipsis is appended when the trimmed prefix still has length
at least 30; empty/whitespace input falls back to "New Conversation". -/
def extractTitle (content : String) : String :=
  let truncated := strTrim (strTake content 30)
  if strLength truncated > 0 then
    truncated ++ (if strLength truncated ≥ 30 then "..." else "")
  else
    "New Conversation"

/-- String form of a role as produced by `JSON.stringify`. -/
def roleString : Role → String
  | Role.user => "user"
  | Role.assistant => "assistant"
  | Role.system => "system"

/-- Lowercase hexadecimal digit, used for JSON control-character escapes. -/
def hexDigit (n : Nat) : String :=
  String.mk [(String.mk "0123456789abcdef".data).data.getD (n % 16) '0']

/-- JSON escaping of one character, as performed by `JSON.stringify`. -/
def jsonEscapeChar (c : Char) : String :=
  if c = '"' then "\\\""
  else if c = '\\' then "\\\\"
  else if c = '\n' then "\\n"
  else if c = '\r' then "\\r"
  else if c = '\t' then "\\t"
  else if c.toNat < 32 then "\\u00" ++ hexDigit (c.toNat / 16) ++ hexDigit c.toNat
  else String.mk [c]

/-- JSON escaping of a string, as performed by `JSON.stringify`. -/
def jsonEscape (s : String) : String :=
  s.data.foldl (fun acc c => acc ++ jsonEscapeChar c) ""

/-- Model of `JSON.stringify` on one message object (keys in insertion
order: `role` then `content`). -/
def msgJson (m : Message) : String :=
  "\x7b\"role\":\"" ++ roleString m.role ++ "\",\"content\":\"" ++ jsonEscape m.content ++ "\"\x7d"

/-- Comma-joined concatenation, as in `JSON.stringify` of an array. -/
def joinComma : List String → String
  | [] => ""
  | [x] => x
  | x :: y :: xs => x ++ "," ++ joinComma (y :: xs)

/-- Model of `JSON.stringify` on an array of messages. -/
def jsonStringify (ms : List Message) : String :=
  "[" ++ joinComma (ms.map msgJson) ++ "]"

/-!
Stream coordinator (`useChat.ts`).  The hook state consists of the
`isLoading` flag, the accumulated partial text `currentStreamingMessage`,
and the `abortControllerRef` cell holding the active request's controller
(modelled by a session number) or nothing.  `nextSession` supplies fresh
session numbers for the `new AbortController()` allocations.
-/

/-- State of the `useChat` hook. -/
structure ChatState where
  isLoading : Bool
  currentStreamingMessage : String
  abortController : Option Nat
  nextSession : Nat
deriving DecidableEq, Repr

/-- Initial `useChat` state: not loading, empty partial text, no controller. -/
def initChat : ChatState :=
  { isLoading := false, currentStreamingMessage := "", abortController := none, nextSession := 0 }

/-- Observable actions of the stream coordinator towards the model provider. -/
inductive StreamAction where
  | abortSession (session : Nat)
  | createRequest (session : Nat)
deriving DecidableEq, Repr

/-- Result of the synchronous prefix of `useChat.sendMessage`: the state
after the prefix, the early-return value when the call was a no-op, and the
log of provider-facing actions in the order they were performed. -/
structure SendStart where
  state : ChatState
  earlyReturn : Option String
  actions : List StreamAction
deriving DecidableEq, Repr

/-- Synchronous prefix of `useChat.sendMessage` (everything up to the first
`await`): when `isLoading` it returns the empty string at once; otherwise it
sets the loading flag, clears the partial text, aborts any still-active
previous request, and allocates the new request's controller before issuing
the request. -/
def sendMessage (s : ChatState) : SendStart :=
  if s.isLoading then
    { state := s, earlyReturn := some "", actions := [] }
  else
    let aborts := match s.abortController with
      | some k => [StreamAction.abortSession k]
      | none => []
    { state := { isLoading := true
                 currentStreamingMessage := ""
                 abortController := some s.nextSession
                 nextSession := s.nextSession + 1 }
      earlyReturn := none
      actions := aborts ++ [StreamAction.createRequest s.nextSession] }

/-- `useChat.cancelStream`: with an active controller it aborts, clears the
controller, synchronously sets `isLoading` to false, clears the streaming
text, and returns the accumulated partial text with the interruption marker
appended; with no active controller it returns the empty string. -/
def cancelStream (s : ChatState) : ChatState × String :=
  match s.abortController with
  | some _ =>
      ({ s with abortController := none, isLoading := false, currentStreamingMessage := "" },
       s.currentStreamingMessage ++ " [Response interrupted]")
  | none => (s, "")

/-!
Persistence / title coordination (`useChatWithHistory.ts`,
class `ChatHistoryService`).  The service state (`state`, `pendingSave`,
`titleGenerated`, `awaitingTitleUpdate`) is combined with the environment:
the pending asynchronous network operations, the single debounce slot of
the `debounce` utility, the backend store's records, and logs of the
create/update calls actually issued.

The `debounce` utility itself is not present under `src/`.  It is modelled
from the spec: a timer-gated queue of depth one — a pending-call slot
holding the latest request's arguments plus a scheduled-fire timestamp
(300 time units after the last call); the arrival of a new call while the
slot is pending replaces the slot's payload (and restarts the quiet
window), and does not reset completion bookkeeping of any in-flight
network call.  When the timer fires, the wrapped function body runs once
with the slot's payload.
-/

/-- Remote conversation record held by the backend store. -/
structure Conversation where
  id : String
  title : String
  messages : List Message
deriving DecidableEq, Repr

/-- Origin of an in-flight create call: the create issued directly by
`addAssistantMessage` on completion, or the one issued by the explicit
`saveConversation`. -/
inductive CreateTag where
  | fromCompletion
  | fromSave
deriving DecidableEq, Repr

/-- An in-flight (or logged) `createConversation` call. -/
structure CreateReq where
  title : String
  messages : List Message
  tag : CreateTag
deriving DecidableEq, Repr

/-- Origin of an in-flight update call: the debounced auto-save or the
explicit `saveConversation`. -/
inductive UpdateTag where
  | fromDebounce
  | fromSave
deriving DecidableEq, Repr

/-- An in-flight (or logged) `updateConversation` call; `title = none`
models an update payload with the `title` key omitted. -/
structure UpdateReq where
  id : String
  title : Option String
  messages : List Message
  tag : UpdateTag
deriving DecidableEq, Repr

/-- The debounce utility's pending-call slot (modelled from the spec):
latest arguments of `debouncedSave` plus the scheduled fire time. -/
structure DebounceSlot where
  id : String
  title : Option String
  messages : List Message
  fireAt : Nat
deriving DecidableEq, Repr

/-- Combined state: the `ChatHistoryService` fields, the debounce slot, the
pending asynchronous operations, the backend store, and logs of issued
calls. -/
structure Sys where
  messages : List Message
  input : String
  conversationId : Option String
  isSaving : Bool
  title : String
  savingStates : List String
  pendingSave : Bool
  titleGenerated : Bool
  awaitingTitleUpdate : Bool
  now : Nat
  debounceSlot : Option DebounceSlot
  pendingCreates : List CreateReq
  pendingUpdates : List UpdateReq
  pendingTitleGens : List String
  pendingLoads : List String
  store : List Conversation
  nextId : Nat
  sentCreates : List CreateReq
  sentUpdates : List UpdateReq
deriving DecidableEq, Repr

/-- ChatHistoryService.setSaving: adds/removes the named tag in
`savingStates` (deduplicated) and recomputes the aggregate `isSaving`. -/
def setSaving (s : Sys) (key : String) (saving : Bool) : Sys :=
  let states := s.savingStates
  let next := if saving then (if states.contains key then states else states ++ [key])
              else states.filter (fun k => k ≠ key)
  { s with savingStates := next, isSaving := next.length > 0 }

/-- The `debouncedSave(id, title, messages)` call: per the spec-modelled
debounce, it (re)fills the slot with the latest payload and schedules the
fire 300 time units from now. -/
def debouncedSave (s : Sys) (id : String) (title : Option String) (msgs : List Message) : Sys :=
  { s with debounceSlot := some { id := id, title := title, messages := msgs, fireAt := s.now + 300 } }

/-- Body of the function wrapped by `debounce` in `debouncedSave`: run when
the debounce timer fires.  It is gated by `pendingSave`: when an update is
already in flight the payload is discarded; otherwise the update call is
issued and `pendingSave`/the `conversation-update` tag are set. -/
def debouncedSaveBody (s : Sys) (d : DebounceSlot) : Sys :=
  if s.pendingSave then s
  else
    let req : UpdateReq := { id := d.id, title := d.title, messages := d.messages, tag := UpdateTag.fromDebounce }
    let s1 := setSaving { s with pendingSave := true } "conversation-update" true
    { s1 with pendingUpdates := s1.pendingUpdates ++ [req], sentUpdates := s1.sentUpdates ++ [req] }

/-- ChatHistoryService.addUserMessage: rejects blank content, appends the
user message, clears the input, and (only when an identifier exists)
schedules the debounced save with the title omitted. -/
def addUserMessage (s : Sys) (content : String) : Sys :=
  if strTrim content = "" then s
  else
    let newMessages := s.messages ++ [{ role := Role.user, content := content }]
    let s1 := { s with messages := newMessages, input := "" }
    match s1.conversationId with
    | some id => debouncedSave s1 id none newMessages
    | none => s1

/-- ChatHistoryService.addAssistantMessage: appends the assistant message;
when the identifier is null it synchronously sets the placeholder title,
marks `awaitingTitleUpdate`, and starts the asynchronous title generation
on the first 100 characters of the JSON-stringified messages; with an
identifier it schedules the debounced update (carrying the current title
only while awaiting the title update); with no identifier and a user
message present it issues a create call immediately. -/
def addAssistantMessage (s : Sys) (content : String) : Sys :=
  if content = "" then s
  else
    let updatedMessages := s.messages ++ [{ role := Role.assistant, content := content }]
    let s1 := { s with messages := updatedMessages }
    let cid := s1.conversationId
    let isFirstQAComplete := cid = none && updatedMessages.length ≥ 1
    let s2 :=
      if isFirstQAComplete then
        let sa := { s1 with title := "Untitled Conversation", awaitingTitleUpdate := true }
        let sb := setSaving sa "title-generation" true
        { sb with pendingTitleGens := sb.pendingTitleGens ++ [strTake (jsonStringify updatedMessages) 100] }
      else s1
    match cid with
    | some id =>
        debouncedSave s2 id (if s2.awaitingTitleUpdate then some s2.title else none) updatedMessages
    | none =>
        if updatedMessages.length ≥ 1 then
          match updatedMessages.find? (fun m => m.role = Role.user) with
          | some userMessage =>
              let t := if s2.titleGenerated then s2.title else extractTitle userMessage.content
              let req : CreateReq := { title := t, messages := updatedMessages, tag := CreateTag.fromCompletion }
              { s2 with pendingCreates := s2.pendingCreates ++ [req], sentCreates := s2.sentCreates ++ [req] }
          | none => s2
        else s2

/-- ChatHistoryService.saveConversation (synchronous prefix): an empty
message list is rejected locally, with no state change and no network
call; otherwise the `conversation-create` tag is set and a create (no
identifier) or update (identifier present) call is issued. -/
def saveConversation (s : Sys) (title : String) : Sys :=
  if s.messages = [] then s
  else
    let s1 := setSaving s "conversation-create" true
    match s1.conversationId with
    | none =>
        let req : CreateReq := { title := title, messages := s1.messages, tag := CreateTag.fromSave }
        { s1 with pendingCreates := s1.pendingCreates ++ [req], sentCreates := s1.sentCreates ++ [req] }
    | some id =>
        let req : UpdateReq := { id := id, title := some title, messages := s1.messages, tag := UpdateTag.fromSave }
        { s1 with pendingUpdates := s1.pendingUpdates ++ [req], sentUpdates := s1.sentUpdates ++ [req] }

/-- ChatHistoryService.setInput. -/
def setInput (s : Sys) (value : String) : Sys :=
  { s with input := value }

/-- ChatHistoryService.loadConversation (synchronous prefix): set the
`conversation-load` tag and issue the fetch. -/
def loadConversation (s : Sys) (id : String) : Sys :=
  let s1 := setSaving s "conversation-load" true
  { s1 with pendingLoads := s1.pendingLoads ++ [id] }

/-- ChatHistoryService.setConversationId: a non-null identifier triggers a
load; null is the explicit new-conversation reset, which clears the
identifier, the messages, the title, the title-generation flags, and the
saving tags (note: the code resets `savingStates` directly, without
recomputing the aggregate `isSaving`). -/
def setConversationId (s : Sys) (id : Option String) : Sys :=
  match id with
  | some i => loadConversation s i
  | none =>
      { s with conversationId := none
               messages := []
               title := "New Conversation"
               titleGenerated := false
               awaitingTitleUpdate := false
               savingStates := [] }

/-- Resolution of the oldest in-flight `generateTitle` network call with a
successfully generated title `g`.  Runs the success continuation of the
private async `generateTitle` method (mark generated, publish the title,
check-and-clear `awaitingTitleUpdate` scheduling the reconciling debounced
save when an identifier exists, clear the saving tag) followed by the
`.then` continuation installed in `addAssistantMessage` (which repeats the
publish and the check-and-clear). -/
def generateTitleResolveOk (s : Sys) (g : String) : Sys :=
  match s.pendingTitleGens with
  | [] => s
  | _ :: rest =>
      let s1 := { s with titleGenerated := true, title := g }
      let s2 :=
        match s1.conversationId with
        | some id =>
            if s1.awaitingTitleUpdate then
              { debouncedSave s1 id (some g) s1.messages with awaitingTitleUpdate := false }
            else s1
        | none => s1
      let s3 := setSaving s2 "title-generation" false
      let s4 := { s3 with title := g }
      let s5 :=
        match s4.conversationId with
        | some id =>
            if s4.awaitingTitleUpdate then
              { debouncedSave s4 id (some g) s4.messages with awaitingTitleUpdate := false }
            else s4
        | none => s4
      { s5 with pendingTitleGens := rest }

/-- Resolution of the oldest in-flight `generateTitle` network call with a
failure.  Runs the catch branch of the private async `generateTitle` method
(clear `awaitingTitleUpdate`, derive the fallback via `extractTitle` from
the method's `content` argument — the JSON-stringified-messages prefix —
mark generated, clear the saving tag) followed by the `.then` continuation,
which publishes the fallback title; its check-and-clear is skipped because
the flag was just cleared. -/
def generateTitleResolveErr (s : Sys) : Sys :=
  match s.pendingTitleGens with
  | [] => s
  | content :: rest =>
      let extractedTitle := extractTitle content
      let s1 := { s with awaitingTitleUpdate := false, titleGenerated := true }
      let s2 := setSaving s1 "title-generation" false
      let s3 := { s2 with title := extractedTitle }
      let s4 :=
        match s3.conversationId with
        | some id =>
            if s3.awaitingTitleUpdate then
              { debouncedSave s3 id (some extractedTitle) s3.messages with awaitingTitleUpdate := false }
            else s3
        | none => s3
      { s4 with pendingTitleGens := rest }

/-- Resolution of the oldest in-flight create call, successfully: the
backend assigns a fresh identifier and records the conversation; the client
continuation stores the identifier (and, on the `saveConversation` path,
clears the `conversation-create` tag). -/
def createResolveOk (s : Sys) : Sys :=
  match s.pendingCreates with
  | [] => s
  | req :: rest =>
      let newId := "c" ++ Nat.repr s.nextId
      let conv : Conversation := { id := newId, title := req.title, messages := req.messages }
      let s1 := { s with store := s.store ++ [conv], nextId := s.nextId + 1,
                         pendingCreates := rest, conversationId := some newId }
      match req.tag with
      | CreateTag.fromCompletion => s1
      | CreateTag.fromSave => setSaving s1 "conversation-create" false

/-- Resolution of the oldest in-flight create call with a failure: the
completion path clears `awaitingTitleUpdate`; the `saveConversation` path
clears the `conversation-create` tag. -/
def createResolveErr (s : Sys) : Sys :=
  match s.pendingCreates with
  | [] => s
  | req :: rest =>
      let s1 := { s with pendingCreates := rest }
      match req.tag with
      | CreateTag.fromCompletion => { s1 with awaitingTitleUpdate := false }
      | CreateTag.fromSave => setSaving s1 "conversation-create" false

/-- Backend effect of a successful `PUT /conversations/{id}`: update the
record in place (an omitted title leaves the stored title unchanged). -/
def storeUpdate (store : List Conversation) (req : UpdateReq) : List Conversation :=
  if store.any (fun c => c.id = req.id) then
    store.map (fun c =>
      if c.id = req.id then
        { c with title := req.title.getD c.title, messages := req.messages }
      else c)
  else
    store ++ [{ id := req.id, title := req.title.getD "", messages := req.messages }]

/-- Resolution of the oldest in-flight update call, successfully: the store
record is updated; the debounced path's `finally` clears the
`conversation-update` tag and the `pendingSave` gate; the
`saveConversation` path clears the `conversation-create` tag. -/
def updateResolveOk (s : Sys) : Sys :=
  match s.pendingUpdates with
  | [] => s
  | req :: rest =>
      let s1 := { s with store := storeUpdate s.store req, pendingUpdates := rest }
      match req.tag with
      | UpdateTag.fromDebounce =>
          { setSaving s1 "conversation-update" false with pendingSave := false }
      | UpdateTag.fromSave => setSaving s1 "conversation-create" false

/-- Resolution of the oldest in-flight update call with a failure: same
client bookkeeping as the success case, no store change. -/
def updateResolveErr (s : Sys) : Sys :=
  match s.pendingUpdates with
  | [] => s
  | req :: rest =>
      let s1 := { s with pendingUpdates := rest }
      match req.tag with
      | UpdateTag.fromDebounce =>
          { setSaving s1 "conversation-update" false with pendingSave := false }
      | UpdateTag.fromSave => setSaving s1 "conversation-create" false

/-- Resolution of the oldest in-flight conversation fetch, successfully
(the requested record exists in the store): the messages and identifier are
replaced by the fetched record's, and the `conversation-load` tag is
cleared. -/
def loadResolveOk (s : Sys) : Sys :=
  match s.pendingLoads with
  | [] => s
  | id :: rest =>
      match s.store.find? (fun c => c.id = id) with
      | none => s
      | some conv =>
          let s1 := { s with pendingLoads := rest, messages := conv.messages,
                             conversationId := some conv.id }
          setSaving s1 "conversation-load" false

/-- Resolution of the oldest in-flight conversation fetch with a failure:
only the `conversation-load` tag is cleared. -/
def loadResolveErr (s : Sys) : Sys :=
  match s.pendingLoads with
  | [] => s
  | _ :: rest =>
      setSaving { s with pendingLoads := rest } "conversation-load" false

/-- Advance the clock by `n` units; if the debounce slot's fire time is
reached the slot is cleared and the wrapped body runs with its payload. -/
def tick (s : Sys) (n : Nat) : Sys :=
  let s1 := { s with now := s.now + n }
  match s1.debounceSlot with
  | some d =>
      if d.fireAt ≤ s1.now then debouncedSaveBody { s1 with debounceSlot := none } d
      else s1
  | none => s1

/-- Scheduler events: the service's public operations plus the resolution
order of the pending asynchronous completions and the passage of time. -/
inductive Event where
  | addUser (content : String)
  | addAssistant (content : String)
  | setInputEv (value : String)
  | setConvId (id : Option String)
  | saveConv (title : String)
  | titleOk (generated : String)
  | titleErr
  | createOk
  | createErr
  | updateOk
  | updateErr
  | loadOk
  | loadErr
  | timePass (n : Nat)
deriving DecidableEq, Repr

/-- One step of the combined system. -/
def step (s : Sys) : Event → Sys
  | Event.addUser content => addUserMessage s content
  | Event.addAssistant content => addAssistantMessage s content
  | Event.setInputEv value => setInput s value
  | Event.setConvId id => setConversationId s id
  | Event.saveConv title => saveConversation s title
  | Event.titleOk g => generateTitleResolveOk s g
  | Event.titleErr => generateTitleResolveErr s
  | Event.createOk => createResolveOk s
  | Event.createErr => createResolveErr s
  | Event.updateOk => updateResolveOk s
  | Event.updateErr => updateResolveErr s
  | Event.loadOk => loadResolveOk s
  | Event.loadErr => loadResolveErr s
  | Event.timePass n => tick s n

/-- Execution of an event sequence. -/
def run (s : Sys) (events : List Event) : Sys :=
  events.foldl step s

/-- Initial state of a fresh `ChatHistoryService` with no initial messages
and no initial identifier (the constructor sets the title to
"New Conversation" in that case), over an empty backend store. -/
def initSys : Sys :=
  { messages := []
    input := ""
    conversationId := none
    isSaving := false
    title := "New Conversation"
    savingStates := []
    pendingSave := false
    titleGenerated := false
    awaitingTitleUpdate := false
    now := 0
    debounceSlot := none
    pendingCreates := []
    pendingUpdates := []
    pendingTitleGens := []
    pendingLoads := []
    store := []
    nextId := 0
    sentCreates := []
    sentUpdates := [] }

/-- Composition `handleCancelStream` of the hook layer: call `cancelStream`
and, when the returned string is non-empty, append it to history via
`addAssistantMessage`. -/
def handleCancelStream (cs : ChatState) (s : Sys) : ChatState × Sys :=
  let (cs1, result) := cancelStream cs
  if result ≠ "" then (cs1, addAssistantMessage s result) else (cs1, s)

/-!
Concrete traces used to settle the claims.  Each trace is a schedule of the
operational semantics: service operations interleaved with the resolution
order of the asynchronous completions chosen by the scheduler.
-/

/-- The user message of spec property P6. -/
def quantumPrompt : String :=
  "Explain quantum computing in simple terms for a five year old audience please"

/-- First exchange, failing title generation (spec property P6). -/
def c5FallbackTrace : List Event :=
  [Event.addUser quantumPrompt, Event.addAssistant "Sure!", Event.titleErr]

/-- Two assistant completions back to back while the identifier is still
null: neither create call has resolved when the second completes. -/
def c1DoubleCreateTrace : List Event :=
  [Event.addUser "Hi", Event.addAssistant "A1", Event.addAssistant "A2"]

/-- First exchange; the create call resolves before title generation, and
the title path then performs the reconciling debounced update. -/
def c2CreateFirstTrace : List Event :=
  [Event.addUser "Hi", Event.addAssistant "Hello there", Event.createOk,
   Event.titleOk "Quantum Chat", Event.timePass 300, Event.updateOk]

/-- First exchange; title generation resolves before the create call. -/
def c2TitleFirstTrace : List Event :=
  [Event.addUser "Hi", Event.addAssistant "Hello there",
   Event.titleOk "Quantum Chat", Event.createOk]

/-- Conversation set-up for the debounce scenarios: one exchange and a
resolved create, so an identifier exists. -/
def c3SetupTrace : List Event :=
  [Event.addUser "Hi", Event.addAssistant "A", Event.createOk]

/-- Three debounced-save calls within the 300-unit quiet window, then the
timer fires and the update resolves. -/
def c3CoalesceTrace : List Event :=
  c3SetupTrace ++
  [Event.addUser "m1", Event.timePass 10, Event.addUser "m2", Event.timePass 10,
   Event.addUser "m3", Event.timePass 300, Event.updateOk]

/-- A debounced-save call arrives while an update is in flight, and its
timer fires before that update resolves. -/
def c3DropTrace : List Event :=
  c3SetupTrace ++
  [Event.addUser "m1", Event.timePass 300, Event.addUser "m2", Event.timePass 300,
   Event.updateOk]

/-- An assistant completion with no user message anywhere in history. -/
def c4NoUserTrace : List Event :=
  [Event.addAssistant "Hi there"]

/-- Number of debounced-path updates currently in flight. -/
def debounceInFlight (s : Sys) : Nat :=
  (s.pendingUpdates.filter (fun r => r.tag = UpdateTag.fromDebounce)).length

/-- Bookkeeping invariant tying the `pendingSave` gate to the number of
debounced-path updates in flight. -/
def debounceInv (s : Sys) : Prop :=
  debounceInFlight s = (if s.pendingSave then 1 else 0)

set_option maxRecDepth 40000

/-- Message literal helper used in lemma and theorem statements. -/
def mkMsg (r : Role) (c : String) : Message := { role := r, content := c }

/-!
Helper lemmas: field effects of the individual operations.
-/

/-- addAssistantMessage always appends exactly the new assistant message to
history (every branch of the method leaves `messages` at `updatedMessages`). -/
lemma addAssistantMessage_messages (s : Sys) (content : String) (h : ¬ content = "") :
    (addAssistantMessage s content).messages = s.messages ++ [mkMsg Role.assistant content] := by
  unfold addAssistantMessage mkMsg
  simp only [if_neg h]
  dsimp only
  repeat' split
  all_goals rfl

lemma addUserMessage_conversationId (s : Sys) (c : String) :
    (addUserMessage s c).conversationId = s.conversationId := by
  unfold addUserMessage debouncedSave
  dsimp only
  repeat' split
  all_goals rfl

lemma addAssistantMessage_conversationId (s : Sys) (c : String) :
    (addAssistantMessage s c).conversationId = s.conversationId := by
  unfold addAssistantMessage debouncedSave setSaving
  dsimp only
  repeat' split
  all_goals rfl

lemma saveConversation_conversationId (s : Sys) (t : String) :
    (saveConversation s t).conversationId = s.conversationId := by
  unfold saveConversation setSaving
  dsimp only
  repeat' split
  all_goals rfl

lemma generateTitleResolveOk_conversationId (s : Sys) (g : String) :
    (generateTitleResolveOk s g).conversationId = s.conversationId := by
  unfold generateTitleResolveOk debouncedSave setSaving
  dsimp only
  repeat' split
  all_goals rfl

lemma generateTitleResolveErr_conversationId (s : Sys) :
    (generateTitleResolveErr s).conversationId = s.conversationId := by
  unfold generateTitleResolveErr debouncedSave setSaving
  dsimp only
  repeat' split
  all_goals rfl

lemma createResolveErr_conversationId (s : Sys) :
    (createResolveErr s).conversationId = s.conversationId := by
  unfold createResolveErr setSaving
  dsimp only
  repeat' split
  all_goals rfl

lemma updateResolveOk_conversationId (s : Sys) :
    (updateResolveOk s).conversationId = s.conversationId := by
  unfold updateResolveOk setSaving
  dsimp only
  repeat' split
  all_goals rfl

lemma updateResolveErr_conversationId (s : Sys) :
    (updateResolveErr s).conversationId = s.conversationId := by
  unfold updateResolveErr setSaving
  dsimp only
  repeat' split
  all_goals rfl

lemma loadResolveErr_conversationId (s : Sys) :
    (loadResolveErr s).conversationId = s.conversationId := by
  unfold loadResolveErr setSaving
  dsimp only
  repeat' split
  all_goals rfl

lemma tick_conversationId (s : Sys) (n : Nat) :
    (tick s n).conversationId = s.conversationId := by
  unfold tick debouncedSaveBody setSaving
  dsimp only
  repeat' split
  all_goals rfl

lemma loadConversation_conversationId (s : Sys) (i : String) :
    (loadConversation s i).conversationId = s.conversationId := by
  unfold loadConversation setSaving
  rfl

lemma createResolveOk_conversationId_isSome (s : Sys)
    (h : (s.conversationId).isSome = true) :
    ((createResolveOk s).conversationId).isSome = true := by
  unfold createResolveOk setSaving
  dsimp only
  repeat' split
  all_goals first | exact h | rfl

lemma loadResolveOk_conversationId_isSome (s : Sys)
    (h : (s.conversationId).isSome = true) :
    ((loadResolveOk s).conversationId).isSome = true := by
  unfold loadResolveOk setSaving
  dsimp only
  repeat' split
  all_goals first | exact h | rfl

/-!
Helper lemmas: the operations' effect on the update-call bookkeeping
(`pendingUpdates`, `pendingSave`) used by the debounce invariant.
-/

lemma addUserMessage_env (s : Sys) (c : String) :
    (addUserMessage s c).pendingUpdates = s.pendingUpdates ∧
    (addUserMessage s c).pendingSave = s.pendingSave := by
  unfold addUserMessage debouncedSave
  dsimp only
  repeat' split
  all_goals exact ⟨rfl, rfl⟩

lemma addAssistantMessage_env (s : Sys) (c : String) :
    (addAssistantMessage s c).pendingUpdates = s.pendingUpdates ∧
    (addAssistantMessage s c).pendingSave = s.pendingSave := by
  unfold addAssistantMessage debouncedSave setSaving
  dsimp only
  repeat' split
  all_goals exact ⟨rfl, rfl⟩

lemma setConversationId_env (s : Sys) (i : Option String) :
    (setConversationId s i).pendingUpdates = s.pendingUpdates ∧
    (setConversationId s i).pendingSave = s.pendingSave := by
  unfold setConversationId loadConversation setSaving
  dsimp only
  repeat' split
  all_goals exact ⟨rfl, rfl⟩

lemma generateTitleResolveOk_env (s : Sys) (g : String) :
    (generateTitleResolveOk s g).pendingUpdates = s.pendingUpdates ∧
    (generateTitleResolveOk s g).pendingSave = s.pendingSave := by
  unfold generateTitleResolveOk debouncedSave setSaving
  dsimp only
  repeat' split
  all_goals exact ⟨rfl, rfl⟩

lemma generateTitleResolveErr_env (s : Sys) :
    (generateTitleResolveErr s).pendingUpdates = s.pendingUpdates ∧
    (generateTitleResolveErr s).pendingSave = s.pendingSave := by
  unfold generateTitleResolveErr debouncedSave setSaving
  dsimp only
  repeat' split
  all_goals exact ⟨rfl, rfl⟩

lemma createResolveOk_env (s : Sys) :
    (createResolveOk s).pendingUpdates = s.pendingUpdates ∧
    (createResolveOk s).pendingSave = s.pendingSave := by
  unfold createResolveOk setSaving
  dsimp only
  repeat' split
  all_goals exact ⟨rfl, rfl⟩

lemma createResolveErr_env (s : Sys) :
    (createResolveErr s).pendingUpdates = s.pendingUpdates ∧
    (createResolveErr s).pendingSave = s.pendingSave := by
  unfold createResolveErr setSaving
  dsimp only
  repeat' split
  all_goals exact ⟨rfl, rfl⟩

lemma loadResolveOk_env (s : Sys) :
    (loadResolveOk s).pendingUpdates = s.pendingUpdates ∧
    (loadResolveOk s).pendingSave = s.pendingSave := by
  unfold loadResolveOk setSaving
  dsimp only
  repeat' split
  all_goals exact ⟨rfl, rfl⟩

lemma loadResolveErr_env (s : Sys) :
    (loadResolveErr s).pendingUpdates = s.pendingUpdates ∧
    (loadResolveErr s).pendingSave = s.pendingSave := by
  unfold loadResolveErr setSaving
  dsimp only
  repeat' split
  all_goals exact ⟨rfl, rfl⟩

lemma saveConversation_env (s : Sys) (t : String) :
    ((saveConversation s t).pendingUpdates.filter (fun r => r.tag = UpdateTag.fromDebounce)) =
      (s.pendingUpdates.filter (fun r => r.tag = UpdateTag.fromDebounce)) ∧
    (saveConversation s t).pendingSave = s.pendingSave := by
  unfold saveConversation setSaving
  dsimp only
  repeat' split
  all_goals simp [List.filter_append]

lemma updateResolveOk_inv (s : Sys) (h : debounceInv s) : debounceInv (updateResolveOk s) := by
  unfold debounceInv debounceInFlight at h ⊢
  cases hpu : s.pendingUpdates with
  | nil =>
      unfold updateResolveOk
      rw [hpu]
      exact h
  | cons req rest =>
      rw [hpu] at h
      cases htag : req.tag with
      | fromDebounce =>
          rw [List.filter_cons_of_pos (by simp [htag])] at h
          have h0 : List.filter (fun r => decide (r.tag = UpdateTag.fromDebounce)) rest = [] := by
            cases hps : s.pendingSave
            · simp [hps] at h
            · simp [hps] at h
              exact List.filter_eq_nil_iff.mpr (by simpa using h)
          unfold updateResolveOk setSaving
          rw [hpu]
          dsimp only
          rw [htag]
          dsimp only
          simp [h0]
      | fromSave =>
          rw [List.filter_cons_of_neg (by simp [htag])] at h
          unfold updateResolveOk setSaving
          rw [hpu]
          dsimp only
          rw [htag]
          dsimp only
          exact h

lemma updateResolveErr_inv (s : Sys) (h : debounceInv s) : debounceInv (updateResolveErr s) := by
  unfold debounceInv debounceInFlight at h ⊢
  cases hpu : s.pendingUpdates with
  | nil =>
      unfold updateResolveErr
      rw [hpu]
      exact h
  | cons req rest =>
      rw [hpu] at h
      cases htag : req.tag with
      | fromDebounce =>
          rw [List.filter_cons_of_pos (by simp [htag])] at h
          have h0 : List.filter (fun r => decide (r.tag = UpdateTag.fromDebounce)) rest = [] := by
            cases hps : s.pendingSave
            · simp [hps] at h
            · simp [hps] at h
              exact List.filter_eq_nil_iff.mpr (by simpa using h)
          unfold updateResolveErr setSaving
          rw [hpu]
          dsimp only
          rw [htag]
          dsimp only
          simp [h0]
      | fromSave =>
          rw [List.filter_cons_of_neg (by simp [htag])] at h
          unfold updateResolveErr setSaving
          rw [hpu]
          dsimp only
          rw [htag]
          dsimp only
          exact h

lemma tick_inv (s : Sys) (n : Nat) (h : debounceInv s) : debounceInv (tick s n) := by
  unfold debounceInv debounceInFlight at h ⊢
  unfold tick debouncedSaveBody setSaving
  dsimp only
  repeat' split
  all_goals simp_all [List.filter_append]

/-- The debounce invariant is preserved by every event. -/
lemma debounceInv_step (s : Sys) (e : Event) (h : debounceInv s) : debounceInv (step s e) := by
  cases e with
  | addUser c =>
      have he := addUserMessage_env s c
      unfold debounceInv debounceInFlight at h ⊢
      simp only [step, he.1, he.2]
      exact h
  | addAssistant c =>
      have he := addAssistantMessage_env s c
      unfold debounceInv debounceInFlight at h ⊢
      simp only [step, he.1, he.2]
      exact h
  | setInputEv v =>
      exact h
  | setConvId i =>
      have he := setConversationId_env s i
      unfold debounceInv debounceInFlight at h ⊢
      simp only [step, he.1, he.2]
      exact h
  | saveConv t =>
      have he := saveConversation_env s t
      unfold debounceInv debounceInFlight at h ⊢
      simp only [step, he.1, he.2]
      exact h
  | titleOk g =>
      have he := generateTitleResolveOk_env s g
      unfold debounceInv debounceInFlight at h ⊢
      simp only [step, he.1, he.2]
      exact h
  | titleErr =>
      have he := generateTitleResolveErr_env s
      unfold debounceInv debounceInFlight at h ⊢
      simp only [step, he.1, he.2]
      exact h
  | createOk =>
      have he := createResolveOk_env s
      unfold debounceInv debounceInFlight at h ⊢
      simp only [step, he.1, he.2]
      exact h
  | createErr =>
      have he := createResolveErr_env s
      unfold debounceInv debounceInFlight at h ⊢
      simp only [step, he.1, he.2]
      exact h
  | updateOk => exact updateResolveOk_inv s h
  | updateErr => exact updateResolveErr_inv s h
  | loadOk =>
      have he := loadResolveOk_env s
      unfold debounceInv debounceInFlight at h ⊢
      simp only [step, he.1, he.2]
      exact h
  | loadErr =>
      have he := loadResolveErr_env s
      unfold debounceInv debounceInFlight at h ⊢
      simp only [step, he.1, he.2]
      exact h
  | timePass n => exact tick_inv s n h

/-- The debounce invariant holds along every run. -/
lemma debounceInv_run (s : Sys) (evs : List Event) (h : debounceInv s) :
    debounceInv (run s evs) := by
  induction evs generalizing s with
  | nil => exact h
  | cons e evs ih => exact ih (step s e) (debounceInv_step s e h)

/-!
Claim theorems.
-/

/-- Claim C1 (counterexample): with the identifier still null, two assistant
completions back to back — before any create call resolves — issue TWO
create calls to the store, refuting "at most one create call is issued". -/
theorem c1_counterexample :
    (run initSys c1DoubleCreateTrace).sentCreates.length = 2 ∧
    (run initSys c1DoubleCreateTrace).pendingCreates.length = 2 ∧
    ¬ (run initSys c1DoubleCreateTrace).sentCreates.length ≤ 1 := by
  decide

/-- Claim C1 (amended): every assistant completion that happens while the
identifier is null and a user message exists issues exactly one additional
create call, whose payload is the full message list at that moment — so the
second of two back-to-back completions issues a second create that carries
the messages of both completions. -/
theorem c1_create_per_completion (s : Sys) (content : String) (um : Message)
    (hid : s.conversationId = none) (hc : ¬ content = "")
    (hum : (s.messages ++ [mkMsg Role.assistant content]).find?
        (fun m => m.role = Role.user) = some um) :
    (addAssistantMessage s content).sentCreates =
      s.sentCreates ++ [{ title := if s.titleGenerated then "Untitled Conversation"
                                   else extractTitle um.content,
                          messages := s.messages ++ [mkMsg Role.assistant content],
                          tag := CreateTag.fromCompletion }] ∧
    (addAssistantMessage s content).pendingCreates =
      s.pendingCreates ++ [{ title := if s.titleGenerated then "Untitled Conversation"
                                      else extractTitle um.content,
                             messages := s.messages ++ [mkMsg Role.assistant content],
                             tag := CreateTag.fromCompletion }] := by
  unfold addAssistantMessage
  simp only [if_neg hc, hid]
  simp [mkMsg] at hum
  simp [setSaving, hum, mkMsg]

/-- Claim C1 witness: concrete application after one user message. -/
theorem c1_witness :
    (addAssistantMessage (run initSys [Event.addUser "Hi"]) "A1").sentCreates =
      (run initSys [Event.addUser "Hi"]).sentCreates ++
        [{ title := if (run initSys [Event.addUser "Hi"]).titleGenerated then "Untitled Conversation"
                    else extractTitle (mkMsg Role.user "Hi").content,
           messages := (run initSys [Event.addUser "Hi"]).messages ++ [mkMsg Role.assistant "A1"],
           tag := CreateTag.fromCompletion }] ∧
    (addAssistantMessage (run initSys [Event.addUser "Hi"]) "A1").pendingCreates =
      (run initSys [Event.addUser "Hi"]).pendingCreates ++
        [{ title := if (run initSys [Event.addUser "Hi"]).titleGenerated then "Untitled Conversation"
                    else extractTitle (mkMsg Role.user "Hi").content,
           messages := (run initSys [Event.addUser "Hi"]).messages ++ [mkMsg Role.assistant "A1"],
           tag := CreateTag.fromCompletion }] :=
  c1_create_per_completion (run initSys [Event.addUser "Hi"]) "A1" (mkMsg Role.user "Hi")
    (by decide) (by decide) (by decide)

/-- Claim C2 (counterexample): when title generation resolves before the
create call, the persisted record keeps the extracted title "Hi", the
generated title "Quantum Chat" stays in local state only, no reconciling
update is ever sent, and `awaitingTitleUpdate` remains set — refuting "the
final persisted record contains the generated title, the second-finishing
task performing the reconciling persistence call". -/
theorem c2_counterexample :
    (run initSys c2TitleFirstTrace).store.map Conversation.title = ["Hi"] ∧
    (run initSys c2TitleFirstTrace).title = "Quantum Chat" ∧
    (run initSys c2TitleFirstTrace).sentUpdates = [] ∧
    (run initSys c2TitleFirstTrace).awaitingTitleUpdate = true ∧
    ¬ (run initSys c2TitleFirstTrace).store.map Conversation.title = ["Quantum Chat"] := by
  decide

/-- Claim C2 (amended): if the create resolves first, the title path
performs the reconciling debounced update and the final record carries the
identifier and the generated title; if title generation resolves first, the
create-resolution path performs no reconciling call — the record keeps the
title the create was issued with (extracted from the first user message),
the generated title remains local, and `awaitingTitleUpdate` stays set. -/
theorem c2_amended_race_outcomes :
    (run initSys c2CreateFirstTrace).store =
      [{ id := "c0", title := "Quantum Chat",
         messages := [mkMsg Role.user "Hi", mkMsg Role.assistant "Hello there"] }] ∧
    (run initSys c2CreateFirstTrace).sentUpdates.length = 1 ∧
    (run initSys c2CreateFirstTrace).awaitingTitleUpdate = false ∧
    (run initSys c2TitleFirstTrace).store =
      [{ id := "c0", title := "Hi",
         messages := [mkMsg Role.user "Hi", mkMsg Role.assistant "Hello there"] }] ∧
    (run initSys c2TitleFirstTrace).sentUpdates = [] ∧
    (run initSys c2TitleFirstTrace).title = "Quantum Chat" ∧
    (run initSys c2TitleFirstTrace).awaitingTitleUpdate = true := by
  decide

/-- Claim C3 (counterexample): a debounced call whose quiet window elapses
while an update is still in flight is dropped by the `pendingSave` gate —
afterwards nothing is pending or in flight and only the first payload was
ever sent, so the later payload (message "m2") neither superseded nor was
queued, refuting the in-flight absorption part of the claim. -/
theorem c3_counterexample :
    (run initSys c3DropTrace).sentUpdates =
      [{ id := "c0", title := none,
         messages := [mkMsg Role.user "Hi", mkMsg Role.assistant "A", mkMsg Role.user "m1"],
         tag := UpdateTag.fromDebounce }] ∧
    (run initSys c3DropTrace).messages =
      [mkMsg Role.user "Hi", mkMsg Role.assistant "A", mkMsg Role.user "m1", mkMsg Role.user "m2"] ∧
    (run initSys c3DropTrace).debounceSlot = none ∧
    (run initSys c3DropTrace).pendingUpdates = [] ∧
    (run initSys c3DropTrace).pendingSave = false ∧
    (run initSys c3DropTrace).store.map (fun c => c.messages) =
      [[mkMsg Role.user "Hi", mkMsg Role.assistant "A", mkMsg Role.user "m1"]] := by
  decide

/-- Claim C3 (amended): at most one debounced update is in flight at any
time along any run; three calls within the 300-unit quiet window coalesce
into exactly one outbound update carrying the third call's payload; but a
call whose timer fires while an update is in flight is dropped (its payload
is neither sent nor queued). -/
theorem c3_amended_debounce :
    (∀ evs : List Event, debounceInFlight (run initSys evs) ≤ 1) ∧
    (run initSys c3CoalesceTrace).sentUpdates =
      [{ id := "c0", title := none,
         messages := [mkMsg Role.user "Hi", mkMsg Role.assistant "A",
                      mkMsg Role.user "m1", mkMsg Role.user "m2", mkMsg Role.user "m3"],
         tag := UpdateTag.fromDebounce }] ∧
    (run initSys c3DropTrace).sentUpdates.length = 1 := by
  refine ⟨fun evs => ?_, by decide, by decide⟩
  have h := debounceInv_run initSys evs rfl
  unfold debounceInv at h
  rw [h]
  cases hps : (run initSys evs).pendingSave <;> simp

/-- Claim C3 witness: concrete instance of the in-flight bound. -/
theorem c3_witness : debounceInFlight (run initSys c3DropTrace) ≤ 1 :=
  c3_amended_debounce.1 c3DropTrace

/-- Claim C4 (counterexample): an assistant completion on an empty history
(no user message anywhere) still starts title generation — placeholder set,
awaiting flag raised, derivation started — refuting "for every other
assistant-message completion (no user message yet in history, ...) title
generation is not started". -/
theorem c4_counterexample :
    (run initSys c4NoUserTrace).messages.find? (fun m => m.role = Role.user) = none ∧
    (run initSys c4NoUserTrace).pendingTitleGens.length = 1 ∧
    (run initSys c4NoUserTrace).title = "Untitled Conversation" ∧
    (run initSys c4NoUserTrace).awaitingTitleUpdate = true := by
  decide

/-- Claim C4 (amended): title generation is started at an assistant
completion precisely when the conversation identifier is null at that
moment (the appended message makes the length condition trivially true);
the placeholder and awaiting flag are set synchronously in exactly that
case, and with an identifier present neither the title nor the awaiting
flag changes. -/
theorem c4_trigger_condition (s : Sys) (content : String) (hc : ¬ content = "") :
    ((addAssistantMessage s content).pendingTitleGens =
      if s.conversationId = none then
        s.pendingTitleGens ++
          [strTake (jsonStringify (s.messages ++ [mkMsg Role.assistant content])) 100]
      else s.pendingTitleGens) ∧
    (s.conversationId = none →
      (addAssistantMessage s content).title = "Untitled Conversation" ∧
      (addAssistantMessage s content).awaitingTitleUpdate = true) ∧
    (∀ i, s.conversationId = some i →
      (addAssistantMessage s content).title = s.title ∧
      (addAssistantMessage s content).awaitingTitleUpdate = s.awaitingTitleUpdate) := by
  cases hcid : s.conversationId with
  | none =>
      refine ⟨?_, fun _ => ⟨?_, ?_⟩, fun i hi => Option.noConfusion hi⟩
      all_goals
        unfold addAssistantMessage setSaving
        dsimp only
        simp only [if_neg hc, hcid]
        simp [mkMsg, List.length_append, Nat.le_add_left]
      all_goals repeat' split
      all_goals rfl
  | some i =>
      refine ⟨?_, fun hn => Option.noConfusion hn, fun j hj => ⟨?_, ?_⟩⟩
      all_goals
        unfold addAssistantMessage debouncedSave setSaving
        dsimp only
        simp only [if_neg hc, hcid]
        simp [mkMsg]

/-- Claim C4 witness: concrete application at the initial state. -/
theorem c4_witness :
    ((addAssistantMessage initSys "Hi there").pendingTitleGens =
      if initSys.conversationId = none then
        initSys.pendingTitleGens ++
          [strTake (jsonStringify (initSys.messages ++ [mkMsg Role.assistant "Hi there"])) 100]
      else initSys.pendingTitleGens) ∧
    (initSys.conversationId = none →
      (addAssistantMessage initSys "Hi there").title = "Untitled Conversation" ∧
      (addAssistantMessage initSys "Hi there").awaitingTitleUpdate = true) ∧
    (∀ i, initSys.conversationId = some i →
      (addAssistantMessage initSys "Hi there").title = initSys.title ∧
      (addAssistantMessage initSys "Hi there").awaitingTitleUpdate = initSys.awaitingTitleUpdate) :=
  c4_trigger_condition initSys "Hi there" (by decide)

/-- Claim C5: evaluating the code on spec property P6's input — user message
"Explain quantum computing in simple terms for a five year old audience
please", assistant reply, failing title generation — the resulting title is
`extractTitle` of the JSON-stringified messages prefix, not the claimed
first-30-characters-of-the-user-message title. -/
theorem c5_fallback_title_eval :
    (run initSys c5FallbackTrace).title = "[\x7b\"role\":\"user\",\"content\":\"Exp..." ∧
    extractTitle quantumPrompt = "Explain quantum computing in s..." ∧
    ¬ (run initSys c5FallbackTrace).title = extractTitle quantumPrompt ∧
    (run initSys c5FallbackTrace).titleGenerated = true := by
  decide

/-- Claim C6: `sendMessage` while loading returns the empty string at once
with no state change and no provider-facing action (no abort, no new
request); a proceeding call aborts any still-active prior session before
issuing the single new request, whose controller replaces the old one. -/
theorem c6_at_most_one_stream (s : ChatState) :
    (s.isLoading = true →
      sendMessage s = { state := s, earlyReturn := some "", actions := [] }) ∧
    (s.isLoading = false →
      sendMessage s =
        { state := { isLoading := true, currentStreamingMessage := "",
                     abortController := some s.nextSession, nextSession := s.nextSession + 1 },
          earlyReturn := none,
          actions := s.abortController.toList.map StreamAction.abortSession ++
                     [StreamAction.createRequest s.nextSession] }) := by
  constructor
  · intro h
    unfold sendMessage
    rw [if_pos h]
  · intro h
    unfold sendMessage
    rw [if_neg (by simp [h])]
    cases hab : s.abortController <;> simp [hab]

/-- Claim C6 witness: concrete loading and idle states. -/
theorem c6_witness :
    sendMessage { isLoading := true, currentStreamingMessage := "Hi",
                  abortController := some 0, nextSession := 1 } =
      { state := { isLoading := true, currentStreamingMessage := "Hi",
                   abortController := some 0, nextSession := 1 },
        earlyReturn := some "", actions := [] } ∧
    sendMessage { isLoading := false, currentStreamingMessage := "",
                  abortController := some 3, nextSession := 7 } =
      { state := { isLoading := true, currentStreamingMessage := "",
                   abortController := some 7, nextSession := 8 },
        earlyReturn := none,
        actions := [StreamAction.abortSession 3, StreamAction.createRequest 7] } :=
  ⟨(c6_at_most_one_stream _).1 rfl, (c6_at_most_one_stream _).2 rfl⟩

/-- Claim C7: cancelling with an active request returns the accumulated
partial text with the interruption marker appended, synchronously clears
the loading flag and the streaming text, and clears the controller; the
function is total, so no error reaches the caller. -/
theorem c7_cancel_returns_accumulated (s : ChatState) (k : Nat) (h : s.abortController = some k) :
    cancelStream s =
      ({ s with abortController := none, isLoading := false, currentStreamingMessage := "" },
       s.currentStreamingMessage ++ " [Response interrupted]") := by
  unfold cancelStream
  rw [h]

/-- Claim C7 witness: cancelling after partial text "Hello wo". -/
theorem c7_witness :
    cancelStream { isLoading := true, currentStreamingMessage := "Hello wo",
                   abortController := some 0, nextSession := 1 } =
      ({ isLoading := false, currentStreamingMessage := "",
         abortController := none, nextSession := 1 },
       "Hello wo [Response interrupted]") :=
  c7_cancel_returns_accumulated
    { isLoading := true, currentStreamingMessage := "Hello wo",
      abortController := some 0, nextSession := 1 } 0 rfl

/-- Claim C8: no event other than the explicit reset `setConversationId
null` can take a non-null conversation identifier back to null; and the
reset clears the identifier, the messages, the title, both
title-generation flags, and the saving tags. -/
theorem c8_identifier_stability :
    (∀ (s : Sys) (e : Event), ¬ e = Event.setConvId none →
      (s.conversationId).isSome = true → ((step s e).conversationId).isSome = true) ∧
    (∀ s : Sys, step s (Event.setConvId none) =
      { s with conversationId := none, messages := [], title := "New Conversation",
               titleGenerated := false, awaitingTitleUpdate := false, savingStates := [] }) := by
  constructor
  · intro s e hne h
    cases e with
    | addUser c => simp only [step, addUserMessage_conversationId]; exact h
    | addAssistant c => simp only [step, addAssistantMessage_conversationId]; exact h
    | setInputEv v => exact h
    | setConvId i =>
        cases i with
        | none => exact absurd rfl hne
        | some v =>
            simp only [step, setConversationId, loadConversation_conversationId]
            exact h
    | saveConv t => simp only [step, saveConversation_conversationId]; exact h
    | titleOk g => simp only [step, generateTitleResolveOk_conversationId]; exact h
    | titleErr => simp only [step, generateTitleResolveErr_conversationId]; exact h
    | createOk => exact createResolveOk_conversationId_isSome s h
    | createErr => simp only [step, createResolveErr_conversationId]; exact h
    | updateOk => simp only [step, updateResolveOk_conversationId]; exact h
    | updateErr => simp only [step, updateResolveErr_conversationId]; exact h
    | loadOk => exact loadResolveOk_conversationId_isSome s h
    | loadErr => simp only [step, loadResolveErr_conversationId]; exact h
    | timePass n => simp only [step, tick_conversationId]; exact h
  · intro s
    rfl

/-- Claim C8 witness: an update resolution keeps the identifier, and the
reset applied to the initial state produces the cleared state. -/
theorem c8_witness :
    ((step (run initSys c3SetupTrace) Event.updateOk).conversationId).isSome = true ∧
    step initSys (Event.setConvId none) =
      { initSys with conversationId := none, messages := [], title := "New Conversation",
                     titleGenerated := false, awaitingTitleUpdate := false, savingStates := [] } :=
  ⟨c8_identifier_stability.1 (run initSys c3SetupTrace) Event.updateOk (by decide) (by decide),
   c8_identifier_stability.2 initSys⟩

/-- Claim C9: saving with an empty message list is rejected locally — the
whole system state (messages, identifier, title, saving flags, logs of
issued calls) is exactly unchanged, so in particular no create and no
update call is issued. -/
theorem c9_empty_save_rejected (s : Sys) (t : String) (h : s.messages = []) :
    step s (Event.saveConv t) = s := by
  show saveConversation s t = s
  unfold saveConversation
  rw [if_pos h]

/-- Claim C9 witness: rejection at the initial (empty) state. -/
theorem c9_witness : step initSys (Event.saveConv "Anything") = initSys :=
  c9_empty_save_rejected initSys "Anything" rfl

/-- Claim C10: cancelling an active request with no accumulated partial
text returns exactly the non-empty marker string " [Response interrupted]",
and the cancel handler then appends a marker-only assistant message to
history; with no active request the empty string is returned and history
is untouched. -/
theorem c10_cancel_marker_only (cs : ChatState) (s : Sys) :
    (¬ cs.abortController = none → cs.currentStreamingMessage = "" →
      (cancelStream cs).2 = " [Response interrupted]" ∧
      (handleCancelStream cs s).2.messages =
        s.messages ++ [mkMsg Role.assistant " [Response interrupted]"]) ∧
    (cs.abortController = none →
      (cancelStream cs).2 = "" ∧ handleCancelStream cs s = (cs, s)) := by
  constructor
  · intro h1 h2
    match hab : cs.abortController with
    | none => exact absurd hab h1
    | some k =>
        have hcs : cancelStream cs =
            ({ cs with abortController := none, isLoading := false, currentStreamingMessage := "" },
             " [Response interrupted]") := by
          unfold cancelStream
          rw [hab, h2]
          rfl
        have hmark : ¬ (" [Response interrupted]" : String) = "" := by decide
        refine ⟨by rw [hcs], ?_⟩
        unfold handleCancelStream
        rw [hcs]
        dsimp only
        rw [if_pos hmark]
        exact addAssistantMessage_messages s " [Response interrupted]" hmark
  · intro h
    have hcs : cancelStream cs = (cs, "") := by
      unfold cancelStream
      rw [h]
    refine ⟨by rw [hcs], ?_⟩
    unfold handleCancelStream
    rw [hcs]
    rfl

/-- Claim C10 witness: active request, empty partial text, at the initial
history state. -/
theorem c10_witness :
    (cancelStream { isLoading := true, currentStreamingMessage := "",
                    abortController := some 0, nextSession := 1 }).2 =
      " [Response interrupted]" ∧
    (handleCancelStream { isLoading := true, currentStreamingMessage := "",
                          abortController := some 0, nextSession := 1 } initSys).2.messages =
      initSys.messages ++ [mkMsg Role.assistant " [Response interrupted]"] :=
  (c10_cancel_marker_only
    { isLoading := true, currentStreamingMessage := "",
      abortController := some 0, nextSession := 1 } initSys).1 (by decide) rfl
